import Mathlib

/-!
Verification of the Source Polling & Update Distribution Engine of the
TelegramNewsFeedBot repository.

Shallow embedding of `src/services/scheduler.py`, `src/services/scraper.py`
(retry loop), `src/services/content_processor.py` and the relevant fields of
the persistence models in `src/models/database.py` / `src/models/schemas.py`.

Modelling conventions:
- Timestamps are integers counting seconds (`datetime.utcnow()` becomes an
  abstract `now : Int`; `timedelta(hours=24)` becomes the constant `86400`).
- The Python standard-library date parsers `datetime.fromisoformat` and
  `datetime.strptime(s, %Y-%m-%d %H:%M:%S)` are abstracted as parameters
  `parseIso parseFb : String → Option Int` (returning `none` exactly when the
  Python call raises `ValueError`/`TypeError`); the scheduler's own dispatch
  logic around them is embedded faithfully.
- The outcome of one network fetch attempt is an input (`Except`/`FetchResult`
  values); the engine's handling of those outcomes is embedded faithfully.
- The Telegram send primitive is abstracted as `deliver : Nat → String → Bool`
  (`false` exactly when `bot.send_message` raises).
- ORM state (the source row, the subscription rows) is passed and returned
  explicitly; a returned state is the post-`session.commit()` state.
-/

namespace NewsFeedBot

/-- Configuration defaults from `src/config.py` (values of the environment
fallbacks: MAX_RETRIES=3, RETRY_DELAY=5, MAX_ITEMS_PER_UPDATE=5,
MAX_POST_LENGTH=4000, SCHEDULER_INTERVAL=300). -/
def MAX_RETRIES : Nat := 3

/-- `RETRY_DELAY` default from `src/config.py`. -/
def RETRY_DELAY : Nat := 5

/-- `MAX_ITEMS_PER_UPDATE` default from `src/config.py`. -/
def MAX_ITEMS_PER_UPDATE : Nat := 5

/-- `MAX_POST_LENGTH` default from `src/config.py`. -/
def MAX_POST_LENGTH : Nat := 4000

/-- `SCHEDULER_INTERVAL` default from `src/config.py`. -/
def SCHEDULER_INTERVAL : Nat := 300

/-- `FeedItem` from `src/models/schemas.py`. -/
structure FeedItem where
  title : String
  url : String
  content : String
  published_at : String := ""
  source_type : String
deriving Repr, DecidableEq

/-- The fields of the `Source` ORM model (`src/models/database.py`) that the
engine reads or writes. -/
structure Source where
  id : Nat
  url : String
  type : String
  is_active : Bool := true
  last_checked : Option Int := none
  last_updated : Option Int := none
  check_count : Nat := 0
  error_count : Nat := 0
deriving Repr, DecidableEq

/-- The fields of the `Subscription` ORM model (`src/models/database.py`) that
the engine reads or writes. -/
structure Subscription where
  id : Nat
  user_id : Nat
  source_id : Nat
  is_active : Bool := true
  notification_enabled : Bool := true
  last_notified : Option Int := none
deriving Repr, DecidableEq

/-- The emoji lookup table at the top of `process_content`
(`src/services/content_processor.py`). -/
def source_emoji (source_type : String) : String :=
  if source_type = "twitter" then "🐦"
  else if source_type = "facebook" then "📘"
  else if source_type = "instagram" then "📸"
  else if source_type = "rss" then "📰"
  else if source_type = "website" then "🌐"
  else "📄"

/-- `process_content` from `src/services/content_processor.py`: formats one
item as Telegram HTML and truncates to `MAX_POST_LENGTH` characters. -/
def process_content (item : FeedItem) : String :=
  let content := source_emoji item.source_type ++ " <b>" ++ item.title ++ "</b>\n\n"
    ++ item.content ++ "\n\n"
    ++ "🔗 <a href=\x27" ++ item.url ++ "\x27>Read more</a>\n"
  let content := if item.published_at ≠ "" then content ++ "⏰ " ++ item.published_at ++ "\n"
    else content
  content.take MAX_POST_LENGTH

/-- The date dispatch inside `SchedulerService._filter_new_items`
(`src/services/scheduler.py` lines 215-221): if the string contains a `T` it
goes to `datetime.fromisoformat` after `replace(Z, +00:00)`, otherwise to the
space-delimited `strptime` fallback. -/
def parse_pub_date (parseIso parseFb : String → Option Int) (s : String) : Option Int :=
  if s.contains 'T' then parseIso (s.replace "Z" "+00:00")
  else parseFb s

/-- `SchedulerService._filter_new_items` (`src/services/scheduler.py` lines
196-231), embedded loop by loop: an item with a falsy (empty) `published_at`
is appended; otherwise the date is parsed, a parse failure appends the item,
and a parsed date is appended exactly when it is strictly after the cutoff. -/
def filter_new_items (parseIso parseFb : String → Option Int) :
    List FeedItem → Int → List FeedItem
  | [], _ => []
  | item :: rest, cutoff =>
    if item.published_at = "" then
      item :: filter_new_items parseIso parseFb rest cutoff
    else
      match parse_pub_date parseIso parseFb item.published_at with
      | some pub_date =>
        if pub_date > cutoff then item :: filter_new_items parseIso parseFb rest cutoff
        else filter_new_items parseIso parseFb rest cutoff
      | none => item :: filter_new_items parseIso parseFb rest cutoff

/-- The per-item classification stated by the specification of the Item
Filter, written independently of the loop above: new iff no timestamp, or
unparsable timestamp, or parsed timestamp strictly after the cutoff. -/
def is_new_item (parseIso parseFb : String → Option Int) (cutoff : Int)
    (item : FeedItem) : Bool :=
  if item.published_at = "" then true
  else
    match parse_pub_date parseIso parseFb item.published_at with
    | some pub_date => pub_date > cutoff
    | none => true

/-- Observable actions of the engine during one per-source check: the scrape
call issued for a source URL, and one delivery attempt per (item, subscriber)
pair, recording whether `bot.send_message` succeeded. -/
inductive Event where
  | fetchCall (url : String)
  | deliveryAttempt (user_id : Nat) (text : String) (success : Bool)
deriving Repr, DecidableEq

/-- The inner subscriber loop of `SchedulerService._send_updates_to_subscribers`
(`src/services/scheduler.py` lines 259-281): one formatted item is sent to
every subscription in turn; a raising send (modelled by `deliver` returning
`false`) is caught and logged, so the loop always continues; a successful send
records `last_notified`. Returns the attempt events and the updated rows. -/
def send_item_to_subscriptions (deliver : Nat → String → Bool) (now : Int)
    (text : String) : List Subscription → List Event × List Subscription
  | [] => ([], [])
  | sub :: rest =>
    let ok := deliver sub.user_id text
    let sub := if ok then { sub with last_notified := some now } else sub
    let (evs, rest) := send_item_to_subscriptions deliver now text rest
    (Event.deliveryAttempt sub.user_id text ok :: evs, sub :: rest)

/-- The outer item loop of `SchedulerService._send_updates_to_subscribers`:
each item of the (already truncated) list is formatted by `process_content`
and sent to all subscriptions, threading the updated rows. -/
def send_items (deliver : Nat → String → Bool) (now : Int) :
    List FeedItem → List Subscription → List Event × List Subscription
  | [], subs => ([], subs)
  | item :: rest, subs =>
    let text := process_content item
    let (evs₁, subs) := send_item_to_subscriptions deliver now text subs
    let (evs₂, subs) := send_items deliver now rest subs
    (evs₁ ++ evs₂, subs)

/-- The subscription query of `_send_updates_to_subscribers`
(`src/services/scheduler.py` lines 243-247): all rows for this source with
both the activation and the notification flags set. -/
def active_subscriptions (source : Source) (subs : List Subscription) :
    List Subscription :=
  subs.filter (fun s => s.source_id = source.id && s.is_active && s.notification_enabled)

/-- Writes the updated subscription rows back into the full table, by row id
(models the in-place mutation of the ORM objects returned by the query). -/
def write_back (subs updated : List Subscription) : List Subscription :=
  subs.map (fun s => (updated.find? (fun u => u.id = s.id)).getD s)

/-- `SchedulerService._send_updates_to_subscribers` (`src/services/scheduler.py`
lines 233-281): resolve the active, notification-enabled subscriptions of the
source; if none, do nothing; otherwise send the first `MAX_ITEMS_PER_UPDATE`
items (`items[:config.MAX_ITEMS_PER_UPDATE]`) to every subscriber. -/
def send_updates_to_subscribers (deliver : Nat → String → Bool) (now : Int)
    (source : Source) (items : List FeedItem) (subs : List Subscription) :
    List Event × List Subscription :=
  let subscriptions := active_subscriptions source subs
  if subscriptions = [] then ([], subs)
  else
    let (evs, updated) := send_items deliver now (items.take MAX_ITEMS_PER_UPDATE) subscriptions
    (evs, write_back subs updated)

/-- The outcome of `scraper.scrape_source` as observed by the scheduler:
a returned item list, a raised `ScraperError` (carrying the number of attempts
named in its aggregated message), or any other exception raised while the
check's body runs (`except Exception` in `_check_single_source`). -/
inductive FetchResult where
  | ok (items : List FeedItem)
  | scraperError (attempts : Nat) (msg : String)
  | otherError (msg : String)
deriving Repr, DecidableEq

/-- State and trace produced by one per-source check: the committed source
row, the committed subscription table, and the emitted events. -/
structure CheckResult where
  source : Source
  subs : List Subscription
  events : List Event
deriving Repr, DecidableEq

/-- `SchedulerService._check_single_source` (`src/services/scheduler.py` lines
138-194), embedded branch by branch:
set `last_checked`, increment `check_count`, then scrape; an empty result
commits and returns; otherwise filter against the watermark
(`last_updated or utcnow() - timedelta(hours=24)`); new items are distributed,
`last_updated` is advanced and `error_count` reset to 0; a `ScraperError`
increments `error_count` and clears `is_active` when the count reaches 10;
any other exception increments `error_count` only. Every branch commits. -/
def check_single_source (parseIso parseFb : String → Option Int)
    (deliver : Nat → String → Bool) (now : Int) (fetch : FetchResult)
    (source : Source) (subs : List Subscription) : CheckResult :=
  let source := { source with last_checked := some now, check_count := source.check_count + 1 }
  match fetch with
  | .ok items =>
    if items = [] then ⟨source, subs, [Event.fetchCall source.url]⟩
    else
      let cutoff := source.last_updated.getD (now - 86400)
      let new_items := filter_new_items parseIso parseFb items cutoff
      if new_items = [] then ⟨source, subs, [Event.fetchCall source.url]⟩
      else
        let (evs, subs) := send_updates_to_subscribers deliver now source new_items subs
        ⟨{ source with last_updated := some now, error_count := 0 }, subs,
          Event.fetchCall source.url :: evs⟩
  | .scraperError _ _ =>
    let source := { source with error_count := source.error_count + 1 }
    let source := if source.error_count ≥ 10 then { source with is_active := false } else source
    ⟨source, subs, [Event.fetchCall source.url]⟩
  | .otherError _ =>
    ⟨{ source with error_count := source.error_count + 1 }, subs,
      [Event.fetchCall source.url]⟩

/-- The retry loop of `ScraperService.scrape_source` (`src/services/scraper.py`
lines 145-171): `attempt k` is the outcome of the k-th fetch attempt (an
`Except.error` models any exception raised by the per-type scrape call).
A successful attempt returns its items; a failed attempt retries while
`k < MAX_RETRIES`, and the last failure raises the single aggregated
`ScraperError` naming `MAX_RETRIES + 1` attempts. -/
def scrape_attempt_loop (attempt : Nat → Except String (List FeedItem))
    (k : Nat) : FetchResult :=
  match attempt k with
  | .ok items => .ok items
  | .error e =>
    if h : k < MAX_RETRIES then scrape_attempt_loop attempt (k + 1)
    else .scraperError (MAX_RETRIES + 1) e
termination_by MAX_RETRIES - k

/-- `ScraperService.scrape_source`: run the attempt loop from attempt 0. -/
def scrape_source (attempt : Nat → Except String (List FeedItem)) : FetchResult :=
  scrape_attempt_loop attempt 0

/-- Events of one scheduler tick (`SchedulerService._check_all_sources`):
issuing one concurrent batch of per-source checks, or sleeping the 1-second
inter-batch pacing delay (`await asyncio.sleep(1)`). -/
inductive TickEvent where
  | checkBatch (srcs : List Source)
  | pacingDelay
deriving Repr, DecidableEq

/-- The batching loop of `SchedulerService._check_all_sources`
(`src/services/scheduler.py` lines 100-108):
`for i in range(0, len(sources), 10)` processes `sources[i:i+10]` and sleeps
for 1 second only when `i + 10 < len(sources)`, i.e. exactly when sources
remain after the current slice. -/
def process_batches (srcs : List Source) : List TickEvent :=
  if h : srcs = [] then []
  else
    let rest := srcs.drop 10
    TickEvent.checkBatch (srcs.take 10) ::
      (if rest = [] then [] else TickEvent.pacingDelay :: process_batches rest)
termination_by srcs.length
decreasing_by
  have hl : 0 < srcs.length := List.length_pos.mpr h
  simp only [List.length_drop]
  omega

/-- The successive length-10 slices `sources[i:i+10]` taken by the batching
loop, as a list of batches. -/
def source_batches (srcs : List Source) : List (List Source) :=
  if h : srcs = [] then []
  else srcs.take 10 :: source_batches (srcs.drop 10)
termination_by srcs.length
decreasing_by
  have hl : 0 < srcs.length := List.length_pos.mpr h
  simp only [List.length_drop]
  omega

/-- `SchedulerService._check_all_sources` (`src/services/scheduler.py` lines
84-115): query the sources with the activation flag set
(`filter(Source.is_active == True)`), return immediately when there are none,
otherwise run the batching loop over them. -/
def check_all_sources (sources : List Source) : List TickEvent :=
  process_batches (sources.filter (fun s => s.is_active))

/-- Result of `force_check_source`: the returned boolean, the committed
source table and subscription table, and the events of the inner check. -/
structure ForceCheckResult where
  ok : Bool
  sources : List Source
  subs : List Subscription
  events : List Event
deriving Repr, DecidableEq

/-- `SchedulerService.force_check_source` (`src/services/scheduler.py` lines
283-307): look the source up by id only (`filter(Source.id == source_id)`,
with no activation-flag condition); return `False` when absent; otherwise run
`_check_single_source` on it and return `True`. -/
def force_check_source (parseIso parseFb : String → Option Int)
    (deliver : Nat → String → Bool) (now : Int) (fetch : FetchResult)
    (sources : List Source) (subs : List Subscription) (source_id : Nat) :
    ForceCheckResult :=
  match sources.find? (fun s => s.id = source_id) with
  | none => ⟨false, sources, subs, []⟩
  | some source =>
    let r := check_single_source parseIso parseFb deliver now fetch source subs
    ⟨true, sources.map (fun s => if s.id = source_id then r.source else s),
      r.subs, r.events⟩

/-- Twelve concrete active sources, used to instantiate the batching scenario
of the specification. -/
def srcs12 : List Source :=
  (List.range 12).map (fun k => { id := k + 1, url := "u", type := "rss" })

/-! ## Theorems -/

/-- Claim C4. For every list of fetched items and every cutoff, `_filter_new_items`
returns exactly the items — in fetch order, since `List.filter` preserves
order — whose `published_at` is empty, or fails to parse (ISO-8601-like via
the `T` branch, else the space-delimited fallback), or parses to a timestamp
strictly after the cutoff; items parsing to a timestamp at or before the
cutoff are excluded. -/
theorem filter_new_items_spec (parseIso parseFb : String → Option Int)
    (items : List FeedItem) (cutoff : Int) :
    filter_new_items parseIso parseFb items cutoff
      = items.filter (is_new_item parseIso parseFb cutoff) := by
  induction items with
  | nil => rfl
  | cons item rest ih =>
    by_cases hp : item.published_at = ""
    · simp [filter_new_items, is_new_item, hp, ih]
    · cases hpd : parse_pub_date parseIso parseFb item.published_at with
      | some d =>
        by_cases hd : d > cutoff <;>
          simp [filter_new_items, is_new_item, hp, hpd, hd, ih]
      | none => simp [filter_new_items, is_new_item, hp, hpd, ih]

/-- Claim C9. For every per-source check, on every fetch outcome (success, scraper
error, or unexpected error), the committed source row has `last_checked` set
to the check time and `check_count` incremented by exactly 1: both updates
happen before the scrape is attempted and every branch commits. -/
theorem check_bookkeeping (parseIso parseFb : String → Option Int)
    (deliver : Nat → String → Bool) (now : Int) (fetch : FetchResult)
    (source : Source) (subs : List Subscription) :
    (check_single_source parseIso parseFb deliver now fetch source subs).source.last_checked
        = some now
    ∧ (check_single_source parseIso parseFb deliver now fetch source subs).source.check_count
        = source.check_count + 1 := by
  cases fetch with
  | ok items =>
    simp only [check_single_source]
    split
    · exact ⟨rfl, rfl⟩
    · split
      · exact ⟨rfl, rfl⟩
      · exact ⟨rfl, rfl⟩
  | scraperError a e =>
    simp only [check_single_source]
    split <;> exact ⟨rfl, rfl⟩
  | otherError e => exact ⟨rfl, rfl⟩

/-- Counterexample to C1 as stated: a source with consecutive-error count 3
whose fetch succeeds but returns no items keeps error count 3 — the claim
demands it be reset to zero on any successful check. -/
theorem successful_empty_check_keeps_errors :
    (check_single_source (fun _ => none) (fun _ => none) (fun _ _ => true) 0
        (FetchResult.ok [])
        { id := 1, url := "u", type := "rss", error_count := 3 } []).source.error_count
      ≠ 0 := by decide

/-- Claim C1, amended. After a check whose fetch succeeds, the consecutive-error
count is reset to zero exactly when the fetch returned items and at least one
was classified new; when the fetch returned no items, or no fetched item was
classified new, the count is left unchanged. In particular it is never
incremented on a successful fetch. -/
theorem error_count_on_success (parseIso parseFb : String → Option Int)
    (deliver : Nat → String → Bool) (now : Int) (items : List FeedItem)
    (source : Source) (subs : List Subscription) :
    (check_single_source parseIso parseFb deliver now (FetchResult.ok items)
        source subs).source.error_count
      = if items = [] then source.error_count
        else if filter_new_items parseIso parseFb items
            (source.last_updated.getD (now - 86400)) = [] then source.error_count
        else 0 := by
  simp only [check_single_source]
  split
  · simp [*]
  · split <;> simp [*]

/-- Every source appearing in a batch issued by the batching loop is one of
the sources the loop was given. -/
theorem mem_of_mem_process_batches :
    ∀ (srcs b : List Source), TickEvent.checkBatch b ∈ process_batches srcs →
      ∀ s ∈ b, s ∈ srcs := by
  have key : ∀ (n : Nat) (srcs b : List Source), srcs.length = n →
      TickEvent.checkBatch b ∈ process_batches srcs → ∀ s ∈ b, s ∈ srcs := by
    intro n
    induction n using Nat.strong_induction_on with
    | _ n ih =>
    intro srcs b hn hb s hs
    rw [process_batches] at hb
    split at hb
    · simp at hb
    · simp only [List.mem_cons] at hb
      rcases hb with hb | hb
      · cases hb
        exact List.take_subset 10 srcs hs
      · rename_i hne
        split at hb
        · simp at hb
        · simp only [List.mem_cons] at hb
          rcases hb with hb | hb
          · cases hb
          · have hlt : (srcs.drop 10).length < n := by
              have : 0 < srcs.length := List.length_pos.mpr hne
              simp only [List.length_drop]
              omega
            exact List.drop_subset 10 srcs
              (ih (srcs.drop 10).length hlt (srcs.drop 10) b rfl hb s hs)
  intro srcs b hb
  exact key srcs.length srcs b rfl hb

/-- Counterexample to C2 as stated: a source at consecutive-error count 9
whose next check fails with an unexpected (non-scraper) error reaches count
10 — the claimed threshold — yet its activation flag stays set, because only
the `ScraperError` branch tests the threshold. -/
theorem unexpected_error_reaches_threshold_without_deactivation :
    ((check_single_source (fun _ => none) (fun _ => none) (fun _ _ => true) 0
        (FetchResult.otherError "boom")
        { id := 1, url := "u", type := "rss", error_count := 9 } []).source.error_count
      = 10)
    ∧ ((check_single_source (fun _ => none) (fun _ => none) (fun _ _ => true) 0
        (FetchResult.otherError "boom")
        { id := 1, url := "u", type := "rss", error_count := 9 } []).source.is_active
      = true) := by decide

/-- Claim C2, amended. A fetch/parse (`ScraperError`) failure increments the
consecutive-error count by 1 and clears the activation flag exactly when the
new count reaches the threshold 10; any other unexpected failure increments
the count identically but never touches the activation flag, even at or past
the threshold. A source whose activation flag is cleared is never part of any
batch issued by a scheduler tick, hence never fetched by one. -/
theorem deactivation_policy (parseIso parseFb : String → Option Int)
    (deliver : Nat → String → Bool) (now : Int) (source : Source)
    (subs : List Subscription) (a : Nat) (e m : String) :
    ((check_single_source parseIso parseFb deliver now (FetchResult.scraperError a e)
          source subs).source.error_count = source.error_count + 1
      ∧ (check_single_source parseIso parseFb deliver now (FetchResult.scraperError a e)
          source subs).source.is_active
        = if source.error_count + 1 ≥ 10 then false else source.is_active)
    ∧ ((check_single_source parseIso parseFb deliver now (FetchResult.otherError m)
          source subs).source.error_count = source.error_count + 1
      ∧ (check_single_source parseIso parseFb deliver now (FetchResult.otherError m)
          source subs).source.is_active = source.is_active)
    ∧ (∀ (sources b : List Source), TickEvent.checkBatch b ∈ check_all_sources sources →
        ∀ s ∈ b, s.is_active = true) := by
  refine ⟨⟨?_, ?_⟩, ⟨rfl, rfl⟩, ?_⟩
  · simp only [check_single_source]
    split <;> rfl
  · simp only [check_single_source]
    split <;> simp_all
  · intro sources b hb s hs
    have hmem := mem_of_mem_process_batches _ b hb s hs
    exact (List.mem_filter.mp hmem).2

/-- Every per-source check issues the scrape call for the source's URL,
whatever the fetch outcome. -/
theorem fetchCall_mem_check_events (parseIso parseFb : String → Option Int)
    (deliver : Nat → String → Bool) (now : Int) (fetch : FetchResult)
    (source : Source) (subs : List Subscription) :
    Event.fetchCall source.url
      ∈ (check_single_source parseIso parseFb deliver now fetch source subs).events := by
  cases fetch with
  | ok items =>
    simp only [check_single_source]
    split
    · simp
    · split <;> simp
  | scraperError a e =>
    simp only [check_single_source]
    split <;> simp
  | otherError e => simp [check_single_source]

/-- Counterexample to C7 as stated: forcing a check of an existing source
whose fetch fails with the aggregated `ScraperError` still returns `true`
(the claim demands `false` on a failed fetch); the committed error count 1
shows the failure path did run inside the check. -/
theorem force_check_true_on_failed_fetch :
    ((force_check_source (fun _ => none) (fun _ => none) (fun _ _ => true) 0
        (FetchResult.scraperError 4 "boom")
        [{ id := 1, url := "u", type := "rss" }] [] 1).ok = true)
    ∧ ((force_check_source (fun _ => none) (fun _ => none) (fun _ _ => true) 0
        (FetchResult.scraperError 4 "boom")
        [{ id := 1, url := "u", type := "rss" }] [] 1).sources.map
          (fun s => s.error_count) = [1]) := by decide

/-- Claim C7, amended. `force_check_source` runs the single source's check and
returns `true` exactly when a source with the given id exists: fetch failures
are caught inside `_check_single_source` (they update the error bookkeeping)
and therefore still yield `true`; `false` is returned only when no source with
that id exists (or, in the real code, when an exception escapes the check,
which every fetch outcome modelled here cannot cause). -/
theorem force_check_returns_found (parseIso parseFb : String → Option Int)
    (deliver : Nat → String → Bool) (now : Int) (fetch : FetchResult)
    (sources : List Source) (subs : List Subscription) (source_id : Nat) :
    (force_check_source parseIso parseFb deliver now fetch sources subs source_id).ok
      = (sources.find? (fun s => s.id = source_id)).isSome := by
  cases h : sources.find? (fun s => s.id = source_id) <;>
    simp [force_check_source, h]

/-- Claim C10. `force_check_source` looks the source up by id only, with no
activation-flag test: whenever a source with the requested id exists — in
particular when its activation flag is `false` — the check runs, the fetch is
invoked for the source's URL, and `true` is returned. -/
theorem force_check_ignores_activation (parseIso parseFb : String → Option Int)
    (deliver : Nat → String → Bool) (now : Int) (fetch : FetchResult)
    (sources : List Source) (subs : List Subscription) (source_id : Nat)
    (src : Source) (h : sources.find? (fun s => s.id = source_id) = some src) :
    (force_check_source parseIso parseFb deliver now fetch sources subs source_id).ok = true
    ∧ Event.fetchCall src.url
      ∈ (force_check_source parseIso parseFb deliver now fetch sources subs source_id).events := by
  simp only [force_check_source, h]
  exact ⟨by simp, fetchCall_mem_check_events parseIso parseFb deliver now fetch src subs⟩

/-- Concrete instance of C10: a deactivated source (activation flag `false`)
is still found, fetched and reported successful by force-check. -/
theorem force_check_ignores_activation_witness :
    ([({ id := 1, url := "u", type := "rss", is_active := false } : Source)].find?
        (fun s => s.id = 1)
      = some { id := 1, url := "u", type := "rss", is_active := false })
    ∧ ((force_check_source (fun _ => none) (fun _ => none) (fun _ _ => true) 0
        (FetchResult.ok [])
        [{ id := 1, url := "u", type := "rss", is_active := false }] [] 1).ok = true
      ∧ Event.fetchCall "u"
        ∈ (force_check_source (fun _ => none) (fun _ => none) (fun _ _ => true) 0
            (FetchResult.ok [])
            [{ id := 1, url := "u", type := "rss", is_active := false }] [] 1).events) :=
  ⟨by decide,
    force_check_ignores_activation (fun _ => none) (fun _ => none) (fun _ _ => true) 0
      (FetchResult.ok [])
      [{ id := 1, url := "u", type := "rss", is_active := false }] [] 1
      { id := 1, url := "u", type := "rss", is_active := false } (by decide)⟩

/-- Claim C3. When every one of the `MAX_RETRIES + 1` fetch attempts fails, the
retry loop of `scrape_source` surfaces exactly one aggregated `ScraperError`
naming `MAX_RETRIES + 1` attempts (its single return value), and handling that
one aggregated failure in `_check_single_source` increments the source's
consecutive-error count by exactly 1 — not once per attempt. -/
theorem aggregated_failure_increments_once
    (attempt : Nat → Except String (List FeedItem))
    (hfail : ∀ k, k ≤ MAX_RETRIES → ∃ e, attempt k = Except.error e) :
    (∃ e, scrape_source attempt = FetchResult.scraperError (MAX_RETRIES + 1) e)
    ∧ ∀ (parseIso parseFb : String → Option Int) (deliver : Nat → String → Bool)
        (now : Int) (source : Source) (subs : List Subscription),
        (check_single_source parseIso parseFb deliver now (scrape_source attempt)
            source subs).source.error_count = source.error_count + 1 := by
  obtain ⟨e0, h0⟩ := hfail 0 (by decide)
  obtain ⟨e1, h1⟩ := hfail 1 (by decide)
  obtain ⟨e2, h2⟩ := hfail 2 (by decide)
  obtain ⟨e3, h3⟩ := hfail 3 (by decide)
  have hs : scrape_source attempt = FetchResult.scraperError (MAX_RETRIES + 1) e3 := by
    rw [scrape_source]
    rw [scrape_attempt_loop, h0]
    rw [scrape_attempt_loop, h1]
    rw [scrape_attempt_loop, h2]
    rw [scrape_attempt_loop, h3]
    rfl
  refine ⟨⟨e3, hs⟩, ?_⟩
  intro parseIso parseFb deliver now source subs
  rw [hs]
  simp only [check_single_source]
  split <;> rfl

/-- Instance of C3 with an attempt that always fails. -/
theorem aggregated_failure_increments_once_witness :
    (∃ e, scrape_source (fun _ => Except.error "x")
        = FetchResult.scraperError (MAX_RETRIES + 1) e)
    ∧ ∀ (parseIso parseFb : String → Option Int) (deliver : Nat → String → Bool)
        (now : Int) (source : Source) (subs : List Subscription),
        (check_single_source parseIso parseFb deliver now
            (scrape_source (fun _ => Except.error "x"))
            source subs).source.error_count = source.error_count + 1 :=
  aggregated_failure_increments_once (fun _ => Except.error "x")
    (fun _ _ => ⟨"x", rfl⟩)

/-- The subscriber loop attempts one delivery per subscription row, in row
order, regardless of the success of the other deliveries. -/
theorem send_item_events (deliver : Nat → String → Bool) (now : Int)
    (text : String) (subs : List Subscription) :
    (send_item_to_subscriptions deliver now text subs).1
      = subs.map (fun sub =>
          Event.deliveryAttempt sub.user_id text (deliver sub.user_id text)) := by
  induction subs with
  | nil => rfl
  | cons sub rest ih =>
    by_cases hok : deliver sub.user_id text <;>
      simp [send_item_to_subscriptions, hok, ih]

/-- The subscriber loop only updates `last_notified`: the subscriber ids of
the rows are unchanged. -/
theorem send_item_user_ids (deliver : Nat → String → Bool) (now : Int)
    (text : String) (subs : List Subscription) :
    ((send_item_to_subscriptions deliver now text subs).2).map
        (fun sub => sub.user_id)
      = subs.map (fun sub => sub.user_id) := by
  induction subs with
  | nil => rfl
  | cons sub rest ih =>
    by_cases hok : deliver sub.user_id text <;>
      simp [send_item_to_subscriptions, hok, ih]

/-- The item loop attempts, for each item in order, one delivery per
subscription row, again independent of any delivery outcome. -/
theorem send_items_events (deliver : Nat → String → Bool) (now : Int)
    (items : List FeedItem) (subs : List Subscription) :
    (send_items deliver now items subs).1
      = items.flatMap (fun item =>
          (subs.map (fun sub => sub.user_id)).map (fun u =>
            Event.deliveryAttempt u (process_content item)
              (deliver u (process_content item)))) := by
  induction items generalizing subs with
  | nil => rfl
  | cons item rest ih =>
    simp only [send_items, List.flatMap_cons]
    rw [send_item_events, ih, send_item_user_ids]
    simp [List.map_map, Function.comp]

/-- Claim C5. The delivery attempts of one distribution are exactly one attempt per
(item, subscriber) pair, where the items are the first `MAX_ITEMS_PER_UPDATE`
fetched-new items (`items[:config.MAX_ITEMS_PER_UPDATE]`) and the subscribers
are the source's active, notification-enabled subscriptions — whatever
successes or failures `deliver` produces. Hence at most `MAX_ITEMS_PER_UPDATE`
(default 5) items are delivered in one check, and a failed delivery to one
subscriber removes no attempt for the remaining subscribers or the remaining
items; quantitatively, the number of attempts is bounded by
`MAX_ITEMS_PER_UPDATE` attempts per subscriber. -/
theorem distributor_spec (deliver : Nat → String → Bool) (now : Int)
    (source : Source) (items : List FeedItem) (subs : List Subscription) :
    ((send_updates_to_subscribers deliver now source items subs).1
      = (items.take MAX_ITEMS_PER_UPDATE).flatMap (fun item =>
          (active_subscriptions source subs).map (fun sub =>
            Event.deliveryAttempt sub.user_id (process_content item)
              (deliver sub.user_id (process_content item)))))
    ∧ (send_updates_to_subscribers deliver now source items subs).1.length
        ≤ MAX_ITEMS_PER_UPDATE * (active_subscriptions source subs).length := by
  have hev : (send_updates_to_subscribers deliver now source items subs).1
      = (items.take MAX_ITEMS_PER_UPDATE).flatMap (fun item =>
          (active_subscriptions source subs).map (fun sub =>
            Event.deliveryAttempt sub.user_id (process_content item)
              (deliver sub.user_id (process_content item)))) := by
    rw [send_updates_to_subscribers]
    by_cases h : active_subscriptions source subs = []
    · simp [h]
    · rw [if_neg h]
      rw [send_items_events]
      simp only [List.map_map]
      rfl
  refine ⟨hev, ?_⟩
  rw [hev]
  have hlen : ((items.take MAX_ITEMS_PER_UPDATE).flatMap (fun item =>
      (active_subscriptions source subs).map (fun sub =>
        Event.deliveryAttempt sub.user_id (process_content item)
          (deliver sub.user_id (process_content item))))).length
      = (items.take MAX_ITEMS_PER_UPDATE).length
          * (active_subscriptions source subs).length := by
    simp only [List.length_flatMap]
    rw [show List.map (List.length ∘ fun item =>
        (active_subscriptions source subs).map (fun sub =>
          Event.deliveryAttempt sub.user_id (process_content item)
            (deliver sub.user_id (process_content item))))
        (items.take MAX_ITEMS_PER_UPDATE)
        = (items.take MAX_ITEMS_PER_UPDATE).map
            (fun _ => (active_subscriptions source subs).length) from
      List.map_congr_left (fun a _ => by simp)]
    simp
  rw [hlen]
  exact Nat.mul_le_mul_right _ (List.length_take_le MAX_ITEMS_PER_UPDATE items)

/-- The batching loop's event list is the batch list with the pacing delay
interspersed strictly between consecutive batches. -/
theorem process_batches_eq (srcs : List Source) :
    process_batches srcs
      = ((source_batches srcs).map TickEvent.checkBatch).intersperse
          TickEvent.pacingDelay := by
  have key : ∀ (n : Nat) (srcs : List Source), srcs.length = n →
      process_batches srcs
        = ((source_batches srcs).map TickEvent.checkBatch).intersperse
            TickEvent.pacingDelay := by
    intro n
    induction n using Nat.strong_induction_on with
    | _ n ih =>
    intro srcs hn
    by_cases h : srcs = []
    · subst h
      rw [process_batches, source_batches]
      simp
    · have hbatch : source_batches srcs
          = srcs.take 10 :: source_batches (srcs.drop 10) := by
        rw [source_batches]; exact dif_neg h
      have hproc : process_batches srcs
          = TickEvent.checkBatch (srcs.take 10) ::
              (if srcs.drop 10 = [] then []
               else TickEvent.pacingDelay :: process_batches (srcs.drop 10)) := by
        rw [process_batches]; exact dif_neg h
      by_cases hr : srcs.drop 10 = []
      · have hb0 : source_batches (srcs.drop 10) = [] := by
          rw [source_batches]; exact dif_pos hr
        rw [hproc, if_pos hr, hbatch, hb0]
        simp [List.intersperse_singleton]
      · have hbr : source_batches (srcs.drop 10)
            = (srcs.drop 10).take 10 :: source_batches ((srcs.drop 10).drop 10) := by
          rw [source_batches]; exact dif_neg hr
        rw [hproc, if_neg hr, hbatch, hbr]
        simp only [List.map_cons, List.intersperse_cons_cons]
        rw [← List.map_cons, ← hbr]
        have hlt : (srcs.drop 10).length < n := by
          have hl : 0 < srcs.length := List.length_pos.mpr h
          simp only [List.length_drop]
          omega
        rw [ih _ hlt _ rfl]
  exact key srcs.length srcs rfl

/-- The batching loop produces `⌈n / 10⌉` batches for `n` sources. -/
theorem source_batches_length (srcs : List Source) :
    (source_batches srcs).length = (srcs.length + 9) / 10 := by
  have key : ∀ (n : Nat) (srcs : List Source), srcs.length = n →
      (source_batches srcs).length = (srcs.length + 9) / 10 := by
    intro n
    induction n using Nat.strong_induction_on with
    | _ n ih =>
    intro srcs hn
    by_cases h : srcs = []
    · subst h
      rw [source_batches]
      simp
    · have hbatch : source_batches srcs
          = srcs.take 10 :: source_batches (srcs.drop 10) := by
        rw [source_batches]; exact dif_neg h
      have hl : 0 < srcs.length := List.length_pos.mpr h
      have hlt : (srcs.drop 10).length < n := by
        simp only [List.length_drop]; omega
      rw [hbatch]
      simp only [List.length_cons, ih _ hlt _ rfl, List.length_drop]
      omega
  exact key srcs.length srcs rfl

/-- Claim C8. A scheduler tick over the sources whose activation flag is set emits
the `⌈n / 10⌉` successive ten-element batches with the 1-second pacing delay
interspersed strictly between consecutive batches — so no delay after the
last batch and none for a single batch. With 12 active sources this is
exactly two batches, of 10 and 2 sources, separated by one pacing delay. -/
theorem batching_spec (sources active : List Source)
    (hA : active = sources.filter (fun s => s.is_active)) :
    (check_all_sources sources
      = ((source_batches active).map TickEvent.checkBatch).intersperse
          TickEvent.pacingDelay)
    ∧ ((source_batches active).length = (active.length + 9) / 10)
    ∧ (active.length = 12 →
        check_all_sources sources
          = [TickEvent.checkBatch (active.take 10), TickEvent.pacingDelay,
             TickEvent.checkBatch (active.drop 10)]
        ∧ (active.take 10).length = 10 ∧ (active.drop 10).length = 2) := by
  subst hA
  refine ⟨process_batches_eq _, source_batches_length _, fun h12 => ?_⟩
  set A := sources.filter (fun s => s.is_active) with hA
  have hnil : A ≠ [] := by
    intro hcon
    rw [hcon] at h12
    simp at h12
  have hd : (A.drop 10).length = 2 := by
    simp only [List.length_drop, h12]
  have hdnil : A.drop 10 ≠ [] := by
    intro hcon
    rw [hcon] at hd
    simp at hd
  have hb1 : source_batches A = A.take 10 :: source_batches (A.drop 10) := by
    rw [source_batches]; exact dif_neg hnil
  have hb2 : source_batches (A.drop 10)
      = (A.drop 10).take 10 :: source_batches ((A.drop 10).drop 10) := by
    rw [source_batches]; exact dif_neg hdnil
  have ht2 : (A.drop 10).take 10 = A.drop 10 :=
    List.take_of_length_le (by omega)
  have hdd : (A.drop 10).drop 10 = [] :=
    List.drop_eq_nil_of_le (by omega)
  have hb3 : source_batches ((A.drop 10).drop 10) = [] := by
    rw [source_batches]; exact dif_pos hdd
  refine ⟨?_, by simp [List.length_take, h12], hd⟩
  rw [check_all_sources, process_batches_eq, ← hA, hb1, hb2, hb3, ht2]
  simp [List.intersperse_cons_cons, List.intersperse_singleton]

/-- Instance of C8 at twelve concrete active sources. -/
theorem batching_spec_witness :
    check_all_sources srcs12
      = [TickEvent.checkBatch ((srcs12.filter (fun s => s.is_active)).take 10),
         TickEvent.pacingDelay,
         TickEvent.checkBatch ((srcs12.filter (fun s => s.is_active)).drop 10)]
    ∧ ((srcs12.filter (fun s => s.is_active)).take 10).length = 10
    ∧ ((srcs12.filter (fun s => s.is_active)).drop 10).length = 2 :=
  (batching_spec srcs12 (srcs12.filter (fun s => s.is_active)) rfl).2.2 (by decide)

end NewsFeedBot
